import Mathlib

/-!
Verification of the window-handle resolution cache of `window_inspector`
(`src/find.rs` and `src/information.rs`), via a shallow embedding.

The OS layer is modelled by a `World`: the list of currently live windows,
each `(handle, class, title)`.  `is_window_exist` embeds the `IsWindow`
wrapper, `findWindowW` embeds the `FindWindowW` call (an empty class or
title matches any window; the first match in enumeration order is
returned; `0` means no match).  The process-wide `HashMap` caches are
embedded as association lists with HashMap semantics (at most one entry
per key is ever observable), passed in and returned explicitly; the
number of `FindWindowW`-wrapper invocations is returned alongside so that
"zero Window Finder calls" claims are statable.
-/

namespace WindowInspector

abbrev Handle := Int

/-- A cache key: `(window_class, window_title)`, as in
`HashMap<(String, String), isize>`. -/
abbrev HKey := String × String

/-- The cache contents: an association list standing for the `HashMap`. -/
abbrev HCache := List (HKey × Handle)

/-- The two `Error` variants reachable from the handle-resolution code
(`Error::WindowClassTitleBothEmpty`, `Error::CannotFindWindow`). -/
inductive Error where
  | WindowClassTitleBothEmpty : Error
  | CannotFindWindow (window_class : String) (window_title : String) : Error
deriving DecidableEq, Repr

/-- The OS window state: the currently live windows, as
`(handle, class, title)` triples in enumeration order. -/
structure World where
  windows : List (Handle × String × String)
deriving DecidableEq, Repr

/-- Embeds `is_window_exist` (the `IsWindow` wrapper): a handle exists iff
some live window carries it. -/
def is_window_exist (w : World) (hwnd : Handle) : Bool :=
  w.windows.any (fun e => decide (e.1 = hwnd))

/-- Embeds the `FindWindowW` OS call: an empty class or title matches any
window; returns the first matching window's handle, or `0` for no match. -/
def findWindowW (w : World) (window_class window_title : String) : Handle :=
  match w.windows.find? (fun e =>
      (decide (window_class = "") || decide (e.2.1 = window_class)) &&
      (decide (window_title = "") || decide (e.2.2 = window_title))) with
  | some e => e.1
  | none => 0

/-- Embeds `get_hwnd` (find.rs:54-73): reject both-empty queries, then wrap
`FindWindowW`, mapping the `0` sentinel to `CannotFindWindow`. -/
def get_hwnd (w : World) (window_class window_title : String) : Except Error Handle :=
  if window_class = "" ∧ window_title = "" then
    .error .WindowClassTitleBothEmpty
  else
    let hwnd := findWindowW w window_class window_title
    if hwnd = 0 then
      .error (.CannotFindWindow window_class window_title)
    else
      .ok hwnd

/-- Embeds `get_window_handle` (information.rs:58-77); its source text is
the same as `get_hwnd`'s up to renaming. -/
def get_window_handle (w : World) (window_class window_title : String) : Except Error Handle :=
  if window_class = "" ∧ window_title = "" then
    .error .WindowClassTitleBothEmpty
  else
    let handle := findWindowW w window_class window_title
    if handle = 0 then
      .error (.CannotFindWindow window_class window_title)
    else
      .ok handle

/-- `HashMap::get` on the embedded cache. -/
def cacheGet (c : HCache) (k : HKey) : Option Handle :=
  match c with
  | [] => none
  | e :: rest => if e.1 = k then some e.2 else cacheGet rest k

/-- `HashMap::remove` on the embedded cache (a `HashMap` holds at most one
entry per key; on such caches this removes exactly that entry). -/
def cacheRemove (c : HCache) (k : HKey) : HCache :=
  match c with
  | [] => []
  | e :: rest => if e.1 = k then cacheRemove rest k else e :: cacheRemove rest k

/-- `HashMap::insert` on the embedded cache; in both resolvers it is only
ever called right after `remove`, so the key is absent. -/
def cacheInsert (c : HCache) (k : HKey) (v : Handle) : HCache :=
  c ++ [(k, v)]

/-- Rust's `Option::is_some_and`. -/
def isSomeAnd (o : Option Handle) (p : Handle → Bool) : Bool :=
  match o with
  | some v => p v
  | none => false

instance : DecidableEq (Except Error Handle) := fun x y =>
  match x, y with
  | .error a, .error b =>
    if h : a = b then .isTrue (by rw [h])
    else .isFalse (by intro hxy; cases hxy; exact h rfl)
  | .error _, .ok _ => .isFalse (by intro h; cases h)
  | .ok _, .error _ => .isFalse (by intro h; cases h)
  | .ok a, .ok b =>
    if h : a = b then .isTrue (by rw [h])
    else .isFalse (by intro hxy; cases hxy; exact h rfl)

/-- The observable outcome of one shared-cache resolve call: the returned
value, the final cache contents, and how many times the `FindWindowW`
wrapper was invoked. -/
structure ResolveOut where
  result : Except Error Handle
  cache : HCache
  finderCalls : Nat
deriving DecidableEq, Repr

/-- Embeds `get_hwnd_ref_cache` (find.rs:83-98).  The guard rejects
both-empty queries; a cached handle passing `is_window_exist` is returned
as is; otherwise the entry is removed, `get_hwnd` is consulted, and on
success its handle is inserted and returned.  (`(cacheGet c k).getD 0` is
the `hwnd.unwrap()` under the `is_some_and` guard.) -/
def get_hwnd_ref_cache (w : World) (cache : HCache) (window_class window_title : String) :
    ResolveOut :=
  if window_class = "" ∧ window_title = "" then
    ⟨.error .WindowClassTitleBothEmpty, cache, 0⟩
  else
    let key : HKey := (window_class, window_title)
    let hwnd := cacheGet cache key
    if isSomeAnd hwnd (is_window_exist w) then
      ⟨.ok (hwnd.getD 0), cache, 0⟩
    else
      let cache1 := cacheRemove cache key
      match get_hwnd w window_class window_title with
      | .error e => ⟨.error e, cache1, 1⟩
      | .ok h => ⟨.ok h, cacheInsert cache1 key h, 1⟩

/-- Embeds `get_window_handle_ref_cache` (information.rs:88-103).  On the
no-live-cached-handle path the source calls **itself** (information.rs:99)
rather than `get_window_handle`, while holding the cache mutex; the
recursion is modelled with explicit fuel, `none` standing for the call not
returning (in the real program: self-deadlock on the non-reentrant
`Mutex`).  The cache threading below follows the source text under a
reentrant-lock reading; no path invokes the `FindWindowW` wrapper. -/
def get_window_handle_ref_cache (w : World) :
    Nat → HCache → String → String → Option ResolveOut
  | 0, _, _, _ => none
  | fuel + 1, cache, window_class, window_title =>
    if window_class = "" ∧ window_title = "" then
      some ⟨.error .WindowClassTitleBothEmpty, cache, 0⟩
    else
      let key : HKey := (window_class, window_title)
      let handle := cacheGet cache key
      if isSomeAnd handle (is_window_exist w) then
        some ⟨.ok (handle.getD 0), cache, 0⟩
      else
        let cache1 := cacheRemove cache key
        match get_window_handle_ref_cache w fuel cache1 window_class window_title with
        | none => none
        | some r =>
          match r.result with
          | .error e => some ⟨.error e, r.cache, r.finderCalls⟩
          | .ok h => some ⟨.ok h, cacheInsert r.cache key h, r.finderCalls⟩

/-- Embeds the `HwndGetterWithCache` struct (find.rs:12-14). -/
structure HwndGetterWithCache where
  cache : HCache
deriving DecidableEq, Repr

/-- `HwndGetterWithCache::new`. -/
def HwndGetterWithCache.new : HwndGetterWithCache := ⟨[]⟩

/-- The observable outcome of one `HwndGetterWithCache::get_hwnd` call:
the returned value, the instance state, the final contents of the
process-wide `HWND_CACHE`, and the `FindWindowW`-wrapper call count. -/
structure InstanceOut where
  result : Except Error Handle
  getter : HwndGetterWithCache
  globalCache : HCache
  finderCalls : Nat
deriving DecidableEq, Repr

/-- Embeds `HwndGetterWithCache::get_hwnd` (find.rs:24-38).  On the
no-live-cached-handle path the source calls `get_hwnd_ref_cache`
(find.rs:34), i.e. the process-wide shared-cache resolver, and inserts the
handle it returns into the instance map as well; so the global cache is an
input and output here. -/
def HwndGetterWithCache.get_hwnd (self : HwndGetterWithCache) (w : World)
    (globalCache : HCache) (window_class window_title : String) : InstanceOut :=
  if window_class = "" ∧ window_title = "" then
    ⟨.error .WindowClassTitleBothEmpty, self, globalCache, 0⟩
  else
    let key : HKey := (window_class, window_title)
    let hwnd := cacheGet self.cache key
    if isSomeAnd hwnd (is_window_exist w) then
      ⟨.ok (hwnd.getD 0), self, globalCache, 0⟩
    else
      let cache1 := cacheRemove self.cache key
      let r := get_hwnd_ref_cache w globalCache window_class window_title
      match r.result with
      | .error e => ⟨.error e, ⟨cache1⟩, r.cache, r.finderCalls⟩
      | .ok h => ⟨.ok h, ⟨cacheInsert cache1 key h⟩, r.cache, r.finderCalls⟩

/-- A concrete world with one window: handle `5`, class `"A"`, title `"B"`. -/
def wAB : World := ⟨[(5, "A", "B")]⟩

/-- A concrete world with no windows at all. -/
def wNone : World := ⟨[]⟩

/-- A cache holding a single entry for key `("A", "B")` with handle `7`
(dead in `wAB` and in `wNone`). -/
def staleCache : HCache := [(("A", "B"), 7)]

/-- Witness world for C7: handle 5's window retitled while staying live. -/
def wRetitled : World := ⟨[(5, "Notepad", "a.txt - Notepad (modified)")]⟩

/-- World with three windows, one per key used in the C8 run. -/
def w3 : World := ⟨[(1, "A", "X"), (2, "B", "Y"), (3, "C", "Z")]⟩

/-- The cache after resolving key `("A", "X")` from the empty cache. -/
def c8r1 : ResolveOut := get_hwnd_ref_cache w3 [] "A" "X"

/-- The cache after then resolving key `("B", "Y")`. -/
def c8r2 : ResolveOut := get_hwnd_ref_cache w3 c8r1.cache "B" "Y"

/-- The cache after then resolving key `("C", "Z")`. -/
def c8r3 : ResolveOut := get_hwnd_ref_cache w3 c8r2.cache "C" "Z"

theorem cacheGet_remove_self (c : HCache) (k : HKey) :
    cacheGet (cacheRemove c k) k = none := by
  induction c with
  | nil => rfl
  | cons e rest ih =>
    by_cases h : e.1 = k
    · simpa [cacheRemove, h] using ih
    · simpa [cacheRemove, cacheGet, h] using ih

theorem cacheGet_remove_ne (c : HCache) (k k' : HKey) (h : k' ≠ k) :
    cacheGet (cacheRemove c k) k' = cacheGet c k' := by
  induction c with
  | nil => rfl
  | cons e rest ih =>
    simp only [cacheRemove]
    by_cases he : e.1 = k
    · rw [if_pos he, ih]
      have hne : e.1 ≠ k' := by rw [he]; exact Ne.symm h
      simp [cacheGet, hne]
    · rw [if_neg he]
      simp only [cacheGet]
      by_cases he' : e.1 = k'
      · simp [he']
      · simp [he', ih]

theorem cacheRemove_of_get_none (c : HCache) (k : HKey) (h : cacheGet c k = none) :
    cacheRemove c k = c := by
  induction c with
  | nil => rfl
  | cons e rest ih =>
    by_cases he : e.1 = k
    · simp [cacheGet, he] at h
    · simp only [cacheGet, if_neg he] at h
      simp [cacheRemove, he, ih h]

theorem cacheGet_insert_self (c : HCache) (k : HKey) (v : Handle)
    (h : cacheGet c k = none) : cacheGet (cacheInsert c k v) k = some v := by
  induction c with
  | nil => simp [cacheInsert, cacheGet]
  | cons e rest ih =>
    by_cases he : e.1 = k
    · simp [cacheGet, he] at h
    · simp only [cacheGet, if_neg he] at h
      simpa [cacheInsert, cacheGet, he] using ih h

theorem cacheGet_insert_ne (c : HCache) (k k' : HKey) (v : Handle) (h : k' ≠ k) :
    cacheGet (cacheInsert c k v) k' = cacheGet c k' := by
  induction c with
  | nil => simp [cacheInsert, cacheGet, Ne.symm h]
  | cons e rest ih =>
    by_cases he : e.1 = k'
    · simp [cacheInsert, cacheGet, he]
    · simpa [cacheInsert, cacheGet, he] using ih

theorem is_window_exist_of_mem {w : World} {h : Handle} {c t : String}
    (hm : (h, c, t) ∈ w.windows) : is_window_exist w h = true := by
  unfold is_window_exist
  exact List.any_eq_true.mpr ⟨(h, c, t), hm, by simp⟩

theorem findWindowW_live (w : World) (wc wt : String)
    (h : findWindowW w wc wt ≠ 0) :
    is_window_exist w (findWindowW w wc wt) = true := by
  unfold findWindowW at h ⊢
  cases hf : List.find? (fun e =>
      (decide (wc = "") || decide (e.2.1 = wc)) &&
      (decide (wt = "") || decide (e.2.2 = wt))) w.windows with
  | none => rw [hf] at h; simp at h
  | some e =>
    show is_window_exist w e.1 = true
    exact List.any_eq_true.mpr ⟨e, List.mem_of_find?_eq_some hf, by simp⟩

theorem get_hwnd_ok_live {w : World} {wc wt : String} {h : Handle}
    (hok : get_hwnd w wc wt = .ok h) : is_window_exist w h = true := by
  unfold get_hwnd at hok
  by_cases hg : wc = "" ∧ wt = ""
  · simp [hg] at hok
  · simp only [if_neg hg] at hok
    by_cases hz : findWindowW w wc wt = 0
    · simp [hz] at hok
    · simp only [if_neg hz, Except.ok.injEq] at hok
      rw [← hok]
      exact findWindowW_live w wc wt hz

theorem get_hwnd_no_bothEmpty {w : World} {wc wt : String}
    (hg : ¬(wc = "" ∧ wt = "")) :
    get_hwnd w wc wt ≠ .error .WindowClassTitleBothEmpty := by
  unfold get_hwnd
  simp only [if_neg hg]
  by_cases hz : findWindowW w wc wt = 0 <;> simp [hz]

theorem get_hwnd_ref_cache_hit {w : World} {cache : HCache} {wc wt : String} {h : Handle}
    (hg : ¬(wc = "" ∧ wt = "")) (hc : cacheGet cache (wc, wt) = some h)
    (hl : is_window_exist w h = true) :
    get_hwnd_ref_cache w cache wc wt = ⟨.ok h, cache, 0⟩ := by
  unfold get_hwnd_ref_cache
  simp [if_neg hg, hc, isSomeAnd, hl]

theorem get_hwnd_ref_cache_miss {w : World} {cache : HCache} {wc wt : String}
    (hg : ¬(wc = "" ∧ wt = ""))
    (hm : isSomeAnd (cacheGet cache (wc, wt)) (is_window_exist w) = false) :
    get_hwnd_ref_cache w cache wc wt =
      match get_hwnd w wc wt with
      | .error e => ⟨.error e, cacheRemove cache (wc, wt), 1⟩
      | .ok h => ⟨.ok h, cacheInsert (cacheRemove cache (wc, wt)) (wc, wt) h, 1⟩ := by
  unfold get_hwnd_ref_cache
  simp [if_neg hg, hm]

/-- On any path where `get_window_handle_ref_cache` reaches its else
branch (no live cached handle for the key), the self-recursion never
returns, whatever the fuel. -/
theorem get_window_handle_ref_cache_diverges (w : World) (wc wt : String)
    (hg : ¬(wc = "" ∧ wt = "")) :
    ∀ (fuel : Nat) (cache : HCache),
      isSomeAnd (cacheGet cache (wc, wt)) (is_window_exist w) = false →
      get_window_handle_ref_cache w fuel cache wc wt = none := by
  intro fuel
  induction fuel with
  | zero => intro cache _; rfl
  | succ n ih =>
    intro cache hm
    unfold get_window_handle_ref_cache
    have hm1 : isSomeAnd (cacheGet (cacheRemove cache (wc, wt)) (wc, wt))
        (is_window_exist w) = false := by
      rw [cacheGet_remove_self]; rfl
    simp [if_neg hg, hm, ih (cacheRemove cache (wc, wt)) hm1]

/-- C1: when no live cached entry exists for a (not both empty) key, the
find.rs resolver `get_hwnd_ref_cache` invokes the Window Finder and, on
finder success, inserts the newly found handle for that key and returns
it.  The information.rs resolver `get_window_handle_ref_cache` violates
this: on the same path it recurses into itself (information.rs:99) and
never returns, for any fuel, even at an input where the finder would
succeed (`get_window_handle wAB "A" "B" = .ok 5`). -/
theorem C1_cache_miss_invokes_finder_and_caches :
    (∀ (w : World) (cache : HCache) (wc wt : String) (h : Handle),
      ¬(wc = "" ∧ wt = "") →
      isSomeAnd (cacheGet cache (wc, wt)) (is_window_exist w) = false →
      get_hwnd w wc wt = .ok h →
      get_hwnd_ref_cache w cache wc wt =
        ⟨.ok h, cacheInsert (cacheRemove cache (wc, wt)) (wc, wt) h, 1⟩ ∧
      cacheGet (get_hwnd_ref_cache w cache wc wt).cache (wc, wt) = some h) ∧
    (∀ fuel : Nat, get_window_handle_ref_cache wAB fuel [] "A" "B" = none) ∧
    get_window_handle wAB "A" "B" = .ok 5 := by
  refine ⟨?_, ?_, by decide⟩
  · intro w cache wc wt h hg hm hok
    have hmain := get_hwnd_ref_cache_miss hg hm
    rw [hok] at hmain
    refine ⟨hmain, ?_⟩
    rw [hmain]
    exact cacheGet_insert_self _ _ _ (cacheGet_remove_self cache (wc, wt))
  · intro fuel
    exact get_window_handle_ref_cache_diverges wAB "A" "B" (by decide) fuel [] (by decide)

theorem C1_witness :
    get_hwnd_ref_cache wAB [] "A" "B" = ⟨.ok 5, [(("A", "B"), 5)], 1⟩ ∧
    get_window_handle_ref_cache wAB 7 [] "A" "B" = none :=
  ⟨(C1_cache_miss_invokes_finder_and_caches.1 wAB [] "A" "B" 5
      (by decide) (by decide) (by decide)).1,
   C1_cache_miss_invokes_finder_and_caches.2.1 7⟩

/-- C2: with a live cached entry, `get_hwnd_ref_cache` returns the cached
handle, leaves the cache unchanged and performs zero Window Finder calls;
consequently, whenever a call returns a handle, an immediately following
call with the same key and unchanged window state returns the identical
handle with zero Window Finder calls. -/
theorem C2_cache_hit_and_second_call_free (w : World) (cache : HCache)
    (wc wt : String) (hg : ¬(wc = "" ∧ wt = "")) :
    (∀ h : Handle, cacheGet cache (wc, wt) = some h → is_window_exist w h = true →
      get_hwnd_ref_cache w cache wc wt = ⟨.ok h, cache, 0⟩) ∧
    (∀ h : Handle, (get_hwnd_ref_cache w cache wc wt).result = .ok h →
      get_hwnd_ref_cache w (get_hwnd_ref_cache w cache wc wt).cache wc wt =
        ⟨.ok h, (get_hwnd_ref_cache w cache wc wt).cache, 0⟩) := by
  constructor
  · intro h hc hl
    exact get_hwnd_ref_cache_hit hg hc hl
  · intro h hres
    by_cases hm : isSomeAnd (cacheGet cache (wc, wt)) (is_window_exist w) = false
    · have hmain := get_hwnd_ref_cache_miss hg hm
      cases hok : get_hwnd w wc wt with
      | error e =>
        rw [hok] at hmain
        rw [hmain] at hres
        exact Except.noConfusion (show (Except.error e : Except Error Handle) = .ok h from hres)
      | ok h2 =>
        rw [hok] at hmain
        rw [hmain] at hres ⊢
        have hh : h2 = h :=
          Except.ok.inj (show (Except.ok h2 : Except Error Handle) = .ok h from hres)
        subst hh
        have hlive := get_hwnd_ok_live hok
        have hc2 : cacheGet (cacheInsert (cacheRemove cache (wc, wt)) (wc, wt) h2)
            (wc, wt) = some h2 :=
          cacheGet_insert_self _ _ _ (cacheGet_remove_self cache (wc, wt))
        exact get_hwnd_ref_cache_hit hg hc2 hlive
    · rw [Bool.not_eq_false] at hm
      cases hco : cacheGet cache (wc, wt) with
      | none => rw [hco] at hm; exact Bool.noConfusion hm
      | some h0 =>
        rw [hco] at hm
        have hl0 : is_window_exist w h0 = true := hm
        have h1 := get_hwnd_ref_cache_hit hg hco hl0
        rw [h1] at hres ⊢
        have hh : h0 = h :=
          Except.ok.inj (show (Except.ok h0 : Except Error Handle) = .ok h from hres)
        subst hh
        exact get_hwnd_ref_cache_hit hg hco hl0

theorem C2_witness :
    get_hwnd_ref_cache wAB [(("A", "B"), 5)] "A" "B" =
      ⟨.ok 5, [(("A", "B"), 5)], 0⟩ :=
  (C2_cache_hit_and_second_call_free wAB [(("A", "B"), 5)] "A" "B" (by decide)).1
    5 (by decide) (by decide)

/-- C3: the find.rs resolver always terminates with at most one Window
Finder call per resolve, and when the cached handle is dead and the
finder also fails, `CannotFindWindow` (NotFound) propagates after exactly
one re-resolution attempt.  The information.rs resolver violates the
termination claim: with a dead cached entry it never returns, for any
fuel (self-recursion at information.rs:99). -/
theorem C3_single_reresolution_and_termination :
    (∀ (w : World) (cache : HCache) (wc wt : String),
      (get_hwnd_ref_cache w cache wc wt).finderCalls ≤ 1) ∧
    get_hwnd_ref_cache wNone staleCache "A" "B" =
      ⟨.error (.CannotFindWindow "A" "B"), [], 1⟩ ∧
    (∀ fuel : Nat, get_window_handle_ref_cache wNone fuel staleCache "A" "B" = none) := by
  refine ⟨?_, by decide, ?_⟩
  · intro w cache wc wt
    by_cases hg : wc = "" ∧ wt = ""
    · have hmain : get_hwnd_ref_cache w cache wc wt =
          ⟨.error .WindowClassTitleBothEmpty, cache, 0⟩ := by
        unfold get_hwnd_ref_cache; rw [if_pos hg]
      rw [hmain]
      exact Nat.zero_le 1
    · by_cases hm : isSomeAnd (cacheGet cache (wc, wt)) (is_window_exist w) = false
      · rw [get_hwnd_ref_cache_miss hg hm]
        cases get_hwnd w wc wt with
        | error e => exact Nat.le_refl 1
        | ok h2 => exact Nat.le_refl 1
      · rw [Bool.not_eq_false] at hm
        cases hco : cacheGet cache (wc, wt) with
        | none => rw [hco] at hm; exact Bool.noConfusion hm
        | some h0 =>
          rw [hco] at hm
          rw [get_hwnd_ref_cache_hit hg hco hm]
          exact Nat.zero_le 1
  · intro fuel
    exact get_window_handle_ref_cache_diverges wNone "A" "B" (by decide) fuel
      staleCache (by decide)

/-- C4: when the cached handle for a (not both empty) key fails the
liveness check, `get_hwnd_ref_cache` removes the stale entry and invokes
the Window Finder (exactly one call); any handle it returns, and any
handle left cached for the key, passes the liveness check — the dead
handle is never returned. -/
theorem C4_dead_entry_reresolved_never_returned (w : World) (cache : HCache)
    (wc wt : String) (h : Handle) (hg : ¬(wc = "" ∧ wt = ""))
    (hc : cacheGet cache (wc, wt) = some h)
    (hdead : is_window_exist w h = false) :
    (get_hwnd_ref_cache w cache wc wt).finderCalls = 1 ∧
    (∀ h' : Handle, (get_hwnd_ref_cache w cache wc wt).result = .ok h' →
      is_window_exist w h' = true) ∧
    (∀ h' : Handle, cacheGet (get_hwnd_ref_cache w cache wc wt).cache (wc, wt) = some h' →
      is_window_exist w h' = true) := by
  have hm : isSomeAnd (cacheGet cache (wc, wt)) (is_window_exist w) = false := by
    rw [hc]
    exact hdead
  have hmain := get_hwnd_ref_cache_miss hg hm
  cases hok : get_hwnd w wc wt with
  | error e =>
    rw [hok] at hmain
    rw [hmain]
    refine ⟨rfl, ?_, ?_⟩
    · intro h' hres
      exact Except.noConfusion (show (Except.error e : Except Error Handle) = .ok h' from hres)
    · intro h' hcg
      have hcg' : cacheGet (cacheRemove cache (wc, wt)) (wc, wt) = some h' := hcg
      rw [cacheGet_remove_self] at hcg'
      exact Option.noConfusion hcg'
  | ok h2 =>
    rw [hok] at hmain
    rw [hmain]
    have hlive := get_hwnd_ok_live hok
    refine ⟨rfl, ?_, ?_⟩
    · intro h' hres
      have hh : h2 = h' :=
        Except.ok.inj (show (Except.ok h2 : Except Error Handle) = .ok h' from hres)
      rw [← hh]
      exact hlive
    · intro h' hcg
      have hcg' : cacheGet (cacheInsert (cacheRemove cache (wc, wt)) (wc, wt) h2)
          (wc, wt) = some h' := hcg
      rw [cacheGet_insert_self _ _ _ (cacheGet_remove_self cache (wc, wt))] at hcg'
      have hh : h2 = h' := Option.some.inj hcg'
      rw [← hh]
      exact hlive

theorem C4_witness :
    (get_hwnd_ref_cache wAB staleCache "A" "B").finderCalls = 1 ∧
    is_window_exist wAB 5 = true :=
  ⟨(C4_dead_entry_reresolved_never_returned wAB staleCache "A" "B" 7
      (by decide) (by decide) (by decide)).1,
   (C4_dead_entry_reresolved_never_returned wAB staleCache "A" "B" 7
      (by decide) (by decide) (by decide)).2.1 5 (by decide)⟩

/-- C5: a both-empty query fails with `WindowClassTitleBothEmpty`
(InvalidQuery) in both resolvers, with no lookup attempted (zero finder
calls) and the cache unchanged, for every cache state; and for any not
both-empty input the find.rs resolver never raises this error. -/
theorem C5_both_empty_rejected (w : World) (cache : HCache) :
    get_hwnd_ref_cache w cache "" "" = ⟨.error .WindowClassTitleBothEmpty, cache, 0⟩ ∧
    (∀ fuel : Nat,
      get_window_handle_ref_cache w (fuel + 1) cache "" "" =
        some ⟨.error .WindowClassTitleBothEmpty, cache, 0⟩) ∧
    (∀ wc wt : String, ¬(wc = "" ∧ wt = "") →
      (get_hwnd_ref_cache w cache wc wt).result ≠ .error .WindowClassTitleBothEmpty) := by
  refine ⟨?_, ?_, ?_⟩
  · unfold get_hwnd_ref_cache
    rw [if_pos ⟨rfl, rfl⟩]
  · intro fuel
    unfold get_window_handle_ref_cache
    rw [if_pos ⟨rfl, rfl⟩]
  · intro wc wt hg
    by_cases hm : isSomeAnd (cacheGet cache (wc, wt)) (is_window_exist w) = false
    · rw [get_hwnd_ref_cache_miss hg hm]
      cases hok : get_hwnd w wc wt with
      | error e =>
        intro hcon
        have hcon' : (Except.error e : Except Error Handle) =
            .error .WindowClassTitleBothEmpty := hcon
        have hne := get_hwnd_no_bothEmpty (w := w) hg
        rw [hok] at hne
        exact hne hcon'
      | ok h2 =>
        intro hcon
        exact Except.noConfusion
          (show (Except.ok h2 : Except Error Handle) =
            .error .WindowClassTitleBothEmpty from hcon)
    · rw [Bool.not_eq_false] at hm
      cases hco : cacheGet cache (wc, wt) with
      | none => rw [hco] at hm; exact Bool.noConfusion hm
      | some h0 =>
        rw [hco] at hm
        rw [get_hwnd_ref_cache_hit hg hco hm]
        intro hcon
        exact Except.noConfusion
          (show (Except.ok h0 : Except Error Handle) =
            .error .WindowClassTitleBothEmpty from hcon)

theorem C5_witness :
    get_hwnd_ref_cache wAB [] "" "" = ⟨.error .WindowClassTitleBothEmpty, [], 0⟩ ∧
    (get_hwnd_ref_cache wAB [] "A" "B").result ≠ .error .WindowClassTitleBothEmpty :=
  ⟨(C5_both_empty_rejected wAB []).1, (C5_both_empty_rejected wAB []).2.2 "A" "B" (by decide)⟩

theorem cacheRemove_length_le (c : HCache) (k : HKey) :
    (cacheRemove c k).length ≤ c.length := by
  induction c with
  | nil => exact Nat.le_refl 0
  | cons e rest ih =>
    by_cases he : e.1 = k
    · simp only [cacheRemove, if_pos he, List.length_cons]
      exact Nat.le_succ_of_le ih
    · simp only [cacheRemove, if_neg he, List.length_cons]
      exact Nat.succ_le_succ ih

/-- C6 counterexample: with a stale (dead-handle) entry cached for the
key and a failing Window Finder, the resolve surfaces NotFound but the
final cache differs from the initial one — the stale entry was removed —
refuting "leaves the cache unchanged". -/
theorem C6_counterexample :
    (get_hwnd_ref_cache wNone staleCache "A" "B").result =
      .error (.CannotFindWindow "A" "B") ∧
    (get_hwnd_ref_cache wNone staleCache "A" "B").cache ≠ staleCache := by
  decide

/-- C6 amended: when no live cached entry exists and the Window Finder
reports no match, the error propagates and the final cache is the input
cache with any entry for the queried key removed: nothing is inserted
(the key is absent afterwards — no negative caching), every other key is
untouched, and if the key was not cached at all the cache is completely
unchanged. -/
theorem C6_not_found_inserts_nothing (w : World) (cache : HCache)
    (wc wt : String) (e : Error) (hg : ¬(wc = "" ∧ wt = ""))
    (hm : isSomeAnd (cacheGet cache (wc, wt)) (is_window_exist w) = false)
    (hfail : get_hwnd w wc wt = .error e) :
    get_hwnd_ref_cache w cache wc wt = ⟨.error e, cacheRemove cache (wc, wt), 1⟩ ∧
    cacheGet (get_hwnd_ref_cache w cache wc wt).cache (wc, wt) = none ∧
    (∀ k' : HKey, k' ≠ (wc, wt) →
      cacheGet (get_hwnd_ref_cache w cache wc wt).cache k' = cacheGet cache k') ∧
    (cacheGet cache (wc, wt) = none → (get_hwnd_ref_cache w cache wc wt).cache = cache) := by
  have hmain := get_hwnd_ref_cache_miss hg hm
  rw [hfail] at hmain
  rw [hmain]
  refine ⟨rfl, cacheGet_remove_self cache (wc, wt), ?_, ?_⟩
  · intro k' hk'
    exact cacheGet_remove_ne cache (wc, wt) k' hk'
  · intro hnone
    exact cacheRemove_of_get_none cache (wc, wt) hnone

theorem C6_witness :
    get_hwnd_ref_cache wNone [] "A" "B" =
      ⟨.error (.CannotFindWindow "A" "B"), [], 1⟩ ∧
    (get_hwnd_ref_cache wNone [] "A" "B").cache = [] :=
  ⟨(C6_not_found_inserts_nothing wNone [] "A" "B" (.CannotFindWindow "A" "B")
      (by decide) (by decide) (by decide)).1,
   (C6_not_found_inserts_nothing wNone [] "A" "B" (.CannotFindWindow "A" "B")
      (by decide) (by decide) (by decide)).2.2.2 (by decide)⟩

/-- C7: a cached handle `H` whose window is still live — possibly now
carrying a class/title different from the queried key — is returned as
is, with zero finder calls and the cache unchanged: the only freshness
check performed on a cached entry is the liveness of the handle, never a
re-check that the window still matches the requested class/title. -/
theorem C7_stale_match_semantics (w : World) (cache : HCache)
    (wc wt c' t' : String) (H : Handle) (hg : ¬(wc = "" ∧ wt = ""))
    (hc : cacheGet cache (wc, wt) = some H)
    (hmem : (H, c', t') ∈ w.windows) :
    get_hwnd_ref_cache w cache wc wt = ⟨.ok H, cache, 0⟩ :=
  get_hwnd_ref_cache_hit hg hc (is_window_exist_of_mem hmem)

theorem C7_witness :
    get_hwnd_ref_cache wRetitled [(("Notepad", "a.txt - Notepad"), 5)]
      "Notepad" "a.txt - Notepad" =
      ⟨.ok 5, [(("Notepad", "a.txt - Notepad"), 5)], 0⟩ :=
  C7_stale_match_semantics wRetitled [(("Notepad", "a.txt - Notepad"), 5)]
    "Notepad" "a.txt - Notepad" "Notepad" "a.txt - Notepad (modified)" 5
    (by decide) (by decide) (by decide)

/-- C8 counterexample: resolving three distinct never-colliding keys from
the empty shared cache evicts nothing — afterwards all three entries are
present and the cache has size 3, so for capacity bound N = 2 the
(N+1)-th insertion evicted no entry (in particular not the least recently
used one), and a resolve on the first-inserted key is a cache hit with
zero Window Finder calls rather than a fresh finder call. -/
theorem C8_counterexample :
    c8r3.cache.length = 3 ∧
    cacheGet c8r3.cache ("A", "X") = some 1 ∧
    cacheGet c8r3.cache ("B", "Y") = some 2 ∧
    cacheGet c8r3.cache ("C", "Z") = some 3 ∧
    (get_hwnd_ref_cache w3 c8r3.cache "A" "X").finderCalls = 0 := by
  decide

/-- C8 amended: the shared cache (`HWND_CACHE`, a plain `HashMap`) is
unbounded and performs no eviction: a resolve call never alters any other
key's entry and grows the cache by at most one entry, so N+1 distinct
keys all stay resident. -/
theorem C8_unbounded_no_eviction (w : World) (cache : HCache)
    (wc wt : String) (k' : HKey) (hk' : k' ≠ (wc, wt)) :
    cacheGet (get_hwnd_ref_cache w cache wc wt).cache k' = cacheGet cache k' ∧
    (get_hwnd_ref_cache w cache wc wt).cache.length ≤ cache.length + 1 := by
  by_cases hg : wc = "" ∧ wt = ""
  · have hmain : get_hwnd_ref_cache w cache wc wt =
        ⟨.error .WindowClassTitleBothEmpty, cache, 0⟩ := by
      unfold get_hwnd_ref_cache; rw [if_pos hg]
    rw [hmain]
    exact ⟨rfl, Nat.le_succ cache.length⟩
  · by_cases hm : isSomeAnd (cacheGet cache (wc, wt)) (is_window_exist w) = false
    · have hmain := get_hwnd_ref_cache_miss hg hm
      cases hok : get_hwnd w wc wt with
      | error e =>
        rw [hok] at hmain
        rw [hmain]
        refine ⟨cacheGet_remove_ne cache (wc, wt) k' hk', ?_⟩
        exact Nat.le_succ_of_le (cacheRemove_length_le cache (wc, wt))
      | ok h2 =>
        rw [hok] at hmain
        rw [hmain]
        constructor
        · have h1 : cacheGet (cacheInsert (cacheRemove cache (wc, wt)) (wc, wt) h2) k' =
              cacheGet (cacheRemove cache (wc, wt)) k' :=
            cacheGet_insert_ne _ _ _ _ hk'
          rw [h1]
          exact cacheGet_remove_ne cache (wc, wt) k' hk'
        · have h2l : (cacheInsert (cacheRemove cache (wc, wt)) (wc, wt) h2).length =
              (cacheRemove cache (wc, wt)).length + 1 := by
            simp [cacheInsert]
          have h3l := cacheRemove_length_le cache (wc, wt)
          calc (cacheInsert (cacheRemove cache (wc, wt)) (wc, wt) h2).length
              = (cacheRemove cache (wc, wt)).length + 1 := h2l
            _ ≤ cache.length + 1 := Nat.succ_le_succ h3l
    · rw [Bool.not_eq_false] at hm
      cases hco : cacheGet cache (wc, wt) with
      | none => rw [hco] at hm; exact Bool.noConfusion hm
      | some h0 =>
        rw [hco] at hm
        rw [get_hwnd_ref_cache_hit hg hco hm]
        exact ⟨rfl, Nat.le_succ cache.length⟩

theorem C8_witness :
    cacheGet (get_hwnd_ref_cache w3 [(("A", "X"), 1)] "B" "Y").cache ("A", "X") =
      some 1 ∧
    (get_hwnd_ref_cache w3 [(("A", "X"), 1)] "B" "Y").cache.length ≤ 2 :=
  C8_unbounded_no_eviction w3 [(("A", "X"), 1)] "B" "Y" ("A", "X") (by decide)

/-- C9 counterexample: a miss in the instance-scoped getter mutates the
process-wide state: starting from an empty instance cache and an empty
global cache, `HwndGetterWithCache::get_hwnd` leaves the found entry in
the global `HWND_CACHE` as well (it delegates to `get_hwnd_ref_cache`,
find.rs:34), refuting "taking no lock and touching no process-wide
state". -/
theorem C9_counterexample :
    (HwndGetterWithCache.new.get_hwnd wAB [] "A" "B").globalCache =
      [(("A", "B"), 5)] ∧
    (HwndGetterWithCache.new.get_hwnd wAB [] "A" "B").globalCache ≠ [] := by
  decide

/-- C9 amended: the shared-cache resolver's only state effect is on the
process-wide map, but the instance-scoped getter mutates both maps: on a
both-empty query or a live instance-cache hit it leaves the instance and
global state untouched, and on every other path it delegates to
`get_hwnd_ref_cache`, so the global cache changes exactly as a direct
shared-cache resolve on it would, and the same result is returned. -/
theorem C9_instance_getter_mutates_global (self : HwndGetterWithCache)
    (w : World) (g : HCache) (wc wt : String) :
    ((wc = "" ∧ wt = "") →
      self.get_hwnd w g wc wt = ⟨.error .WindowClassTitleBothEmpty, self, g, 0⟩) ∧
    (¬(wc = "" ∧ wt = "") →
      isSomeAnd (cacheGet self.cache (wc, wt)) (is_window_exist w) = true →
      (self.get_hwnd w g wc wt).getter = self ∧
      (self.get_hwnd w g wc wt).globalCache = g) ∧
    (¬(wc = "" ∧ wt = "") →
      isSomeAnd (cacheGet self.cache (wc, wt)) (is_window_exist w) = false →
      (self.get_hwnd w g wc wt).globalCache = (get_hwnd_ref_cache w g wc wt).cache ∧
      (self.get_hwnd w g wc wt).result = (get_hwnd_ref_cache w g wc wt).result) := by
  refine ⟨?_, ?_, ?_⟩
  · intro hg
    unfold HwndGetterWithCache.get_hwnd
    rw [if_pos hg]
  · intro hg hm
    unfold HwndGetterWithCache.get_hwnd
    rw [if_neg hg]
    simp [if_pos hm]
  · intro hg hm
    have hm' : ¬ isSomeAnd (cacheGet self.cache (wc, wt)) (is_window_exist w) = true := by
      rw [hm]
      exact Bool.false_ne_true
    unfold HwndGetterWithCache.get_hwnd
    rw [if_neg hg]
    simp only [if_neg hm']
    cases hr : (get_hwnd_ref_cache w g wc wt).result with
    | error e => exact ⟨rfl, rfl⟩
    | ok h2 => exact ⟨rfl, rfl⟩

theorem C9_witness :
    (HwndGetterWithCache.new.get_hwnd wAB [] "A" "B").globalCache =
      (get_hwnd_ref_cache wAB [] "A" "B").cache ∧
    (HwndGetterWithCache.new.get_hwnd wAB [] "A" "B").result =
      (get_hwnd_ref_cache wAB [] "A" "B").result :=
  (C9_instance_getter_mutates_global HwndGetterWithCache.new wAB [] "A" "B").2.2
    (by decide) (by decide)

/-- C10: the two plain finders `get_hwnd` and `get_window_handle` agree
extensionally (their source texts are identical up to renaming), but the
two cached resolvers are not extensionally equal: from the same world and
the same empty cache, the find.rs resolver returns handle 5 after one
finder call and caches it, while the information.rs resolver never
returns, whatever the fuel (self-recursion at information.rs:99). -/
theorem C10_generations_not_equivalent :
    (∀ (w : World) (wc wt : String), get_hwnd w wc wt = get_window_handle w wc wt) ∧
    get_hwnd_ref_cache wAB [] "A" "B" = ⟨.ok 5, [(("A", "B"), 5)], 1⟩ ∧
    (∀ fuel : Nat, get_window_handle_ref_cache wAB fuel [] "A" "B" = none) := by
  refine ⟨fun w wc wt => rfl, by decide, ?_⟩
  intro fuel
  exact get_window_handle_ref_cache_diverges wAB "A" "B" (by decide) fuel [] (by decide)

example : get_hwnd wAB "A" "B" = .ok 5 := by decide
example : get_hwnd wAB "A" "" = .ok 5 := by decide
example : get_hwnd wAB "" "" = .error .WindowClassTitleBothEmpty := by decide
example : get_hwnd wAB "C" "B" = .error (.CannotFindWindow "C" "B") := by decide
example : (get_hwnd_ref_cache wAB [] "A" "B").result = .ok 5 := by decide
example : (get_hwnd_ref_cache wAB [] "A" "B").cache = [(("A", "B"), 5)] := by decide
example : (get_hwnd_ref_cache wAB [(("A", "B"), 5)] "A" "B").finderCalls = 0 := by decide
example : get_window_handle_ref_cache wAB 10 [] "A" "B" = none := by decide
example : (get_window_handle_ref_cache wAB 10 [(("A", "B"), 5)] "A" "B").isSome = true := by
  decide

end WindowInspector
